import Mathlib

/-!
Shallow embedding of `src/index.ts` of the update-cloud-translation-glossary
action. The program is a linear sequence of three HTTP calls (delete, create,
inspect) against the Google Translation v3 API, orchestrated by `handler` and
dispatched by `main`.

Modelling choices:
* Effects (log lines, HTTP requests, the single pause, CI outputs) are recorded
  as an event trace; a computation is a pair of an `Except` result and the list
  of events it emitted, i.e. an exception monad over a writer monad.
* The network is modelled by a `Responses` oracle giving the response of each
  of the three calls (each call is made at most once per run).
* A JSON request body built by `JSON.stringify` is modelled structurally as a
  `GlossaryRequest` value; an `Option` field that is `none` models a key that
  is absent from the serialized object (the object literals in the source
  simply omit the key in the other branch).
* JavaScript string primitives (`trim`, `split(",")`, `parseInt`) are modelled
  by structurally recursive functions over `List Char` so that the kernel can
  evaluate them.
* `@actions/core` collaborator: `getInput` returns the trimmed value, `""` when
  absent; with `required: true` it throws when the raw value is empty.
-/

namespace Glossary

/-- The `STATE` union type of the source: `"FAILED" | "RUNNING" | "SUCCEEDED"`. -/
inductive STATE where
  | FAILED
  | RUNNING
  | SUCCEEDED
deriving DecidableEq, Repr

def stateToString : STATE → String
  | .FAILED => "FAILED"
  | .RUNNING => "RUNNING"
  | .SUCCEEDED => "SUCCEEDED"

/-- The `ErrorMessage` interface of the source. -/
structure ErrorMessage where
  code : Int
  message : String
  status : Option String := none
deriving DecidableEq, Repr

/-- The `MetaData` interface of the source (`atType` stands for the JSON key
set to at-type, which is not a legal Lean field name). -/
structure MetaData where
  atType : String
  name : String
  state : STATE
deriving DecidableEq, Repr

/-- The `GoogleResponse` interface of the source; `none` models an absent
(undefined) field of the decoded JSON. -/
structure GoogleResponse where
  name : Option String := none
  metadata : Option MetaData := none
  error : Option ErrorMessage := none
  done : Option String := none
deriving DecidableEq, Repr

structure LanguagePair where
  sourceLanguageCode : String
  targetLanguageCode : String
deriving DecidableEq, Repr

structure LanguageCodesSet where
  languageCodes : List String
deriving DecidableEq, Repr

structure GcsSource where
  inputUri : String
deriving DecidableEq, Repr

structure InputConfig where
  gcsSource : GcsSource
deriving DecidableEq, Repr

/-- The create request body as serialized by `JSON.stringify` in `handler`:
a `none` optional field models a key that is absent from the JSON object. -/
structure GlossaryRequest where
  name : String
  languagePair : Option LanguagePair := none
  languageCodesSet : Option LanguageCodesSet := none
  inputConfig : InputConfig
deriving DecidableEq, Repr

/-- A thrown JavaScript exception: `error m` is `throw Error(m)` from the
source; `typeError m` is a runtime `TypeError` (property access on
`undefined`). -/
inductive JsError where
  | error (msg : String)
  | typeError (msg : String)
deriving DecidableEq, Repr

/-- Observable events of a run: `@actions/core` log lines and CI signals, the
three HTTP requests, and the single pause (`setTimeout`, milliseconds). -/
inductive Event where
  | debug (msg : String)
  | info (msg : String)
  | warning (msg : String)
  | errorLog (msg : String)
  | httpDelete (url auth : String)
  | httpPost (url auth : String) (body : GlossaryRequest)
  | httpGet (url auth : String)
  | sleep (ms : Int)
  | setOutput (key value : String)
  | setFailed (msg : String)
deriving DecidableEq, Repr

/-- One HTTP response of the oracle: its status, its body as text
(`resp.text()`), and its body decoded as JSON (`resp.json()`). -/
structure Resp where
  status : Nat
  text : String
  json : GoogleResponse
deriving DecidableEq, Repr

/-- The network oracle: the response each of the three calls would receive.
Each call happens at most once per run, so one response per call suffices. -/
structure Responses where
  deleteResp : Resp
  createResp : Resp
  inspectResp : Resp
deriving DecidableEq, Repr

/-- The CI input collaborator: the raw string supplied for an input name,
`none` when the input is absent. -/
structure CIInputs where
  lookup : String → Option String

/-! ## JavaScript string primitives, modelled structurally -/

def dropWhitespaceLeft : List Char → List Char
  | [] => []
  | c :: cs => if c.isWhitespace then dropWhitespaceLeft cs else c :: cs

/-- Model of JavaScript `String.prototype.trim` (also used for the trimming
done by `@actions/core.getInput`). -/
def jsTrim (s : String) : String :=
  String.mk ((dropWhitespaceLeft (dropWhitespaceLeft s.data).reverse).reverse)

def splitCommaAux : List Char → List Char → List (List Char)
  | [], acc => [acc.reverse]
  | c :: cs, acc =>
    if c = ',' then acc.reverse :: splitCommaAux cs [] else splitCommaAux cs (c :: acc)

/-- Model of JavaScript `s.split(",")`. -/
def jsSplitComma (s : String) : List String :=
  (splitCommaAux s.data []).map String.mk

/-- The numeric value of a (hex) digit character, `none` otherwise. -/
def hexDigitVal (c : Char) : Option Nat :=
  if c.isDigit then some (c.toNat - 48)
  else if 'a' ≤ c ∧ c ≤ 'f' then some (c.toNat - 87)
  else if 'A' ≤ c ∧ c ≤ 'F' then some (c.toNat - 55)
  else none

/-- Accumulate the longest prefix of digits below `radix`. -/
def parseDigitsAux (radix : Nat) : List Char → Nat → Nat
  | [], acc => acc
  | c :: cs, acc =>
    match hexDigitVal c with
    | some d => if d < radix then parseDigitsAux radix cs (acc * radix + d) else acc
    | none => acc

/-- Model of JavaScript `parseInt(s)` with no radix argument: skip whitespace,
optional sign, optional `0x` hex marker, then the longest digit run; `none`
models `NaN`. -/
def jsParseInt (s : String) : Option Int :=
  let cs := dropWhitespaceLeft s.data
  let signed : Bool × List Char :=
    match cs with
    | '-' :: rest => (true, rest)
    | '+' :: rest => (false, rest)
    | _ => (false, cs)
  let radixed : Nat × List Char :=
    match signed.2 with
    | '0' :: 'x' :: rest => (16, rest)
    | '0' :: 'X' :: rest => (16, rest)
    | _ => (10, signed.2)
  match radixed.2 with
  | [] => none
  | c :: _ =>
    match hexDigitVal c with
    | none => none
    | some d =>
      if d < radixed.1 then
        let n := parseDigitsAux radixed.1 radixed.2 0
        some (if signed.1 then -(n : Int) else (n : Int))
      else none

/-! ## JSON serialization used only in log lines -/

/-- JSON string literal (escaping of inner quotes elided; no logged body in the
claims contains a quote). -/
def jsonStr (s : String) : String := "\"" ++ s ++ "\""

def stringifyErrorMessage (e : ErrorMessage) : String :=
  let base := "\x7b\"code\":" ++ toString e.code ++ ",\"message\":" ++ jsonStr e.message
  let withStatus :=
    match e.status with
    | some st => base ++ ",\"status\":" ++ jsonStr st
    | none => base
  withStatus ++ "\x7d"

def stringifyMetaData (m : MetaData) : String :=
  "\x7b\"@type\":" ++ jsonStr m.atType ++ ",\"name\":" ++ jsonStr m.name ++
    ",\"state\":" ++ jsonStr (stateToString m.state) ++ "\x7d"

/-- Model of `JSON.stringify` on a decoded `GoogleResponse` (used in the
inspect error log line); absent fields are omitted. -/
def stringifyGoogleResponse (g : GoogleResponse) : String :=
  let fields :=
    (match g.name with | some n => ["\"name\":" ++ jsonStr n] | none => []) ++
    (match g.metadata with | some m => ["\"metadata\":" ++ stringifyMetaData m] | none => []) ++
    (match g.error with | some e => ["\"error\":" ++ stringifyErrorMessage e] | none => []) ++
    (match g.done with | some d => ["\"done\":" ++ jsonStr d] | none => [])
  "\x7b" ++ String.intercalate "," fields ++ "\x7d"

/-! ## The effect monad: exception over an event trace -/

deriving instance DecidableEq for Except

/-- A computation: its result and the events it emitted, in order. -/
def M (α : Type) : Type := Except JsError α × List Event

instance : Monad M where
  pure a := (Except.ok a, [])
  bind x f :=
    match x with
    | (Except.ok a, evs) =>
      match f a with
      | (r, evs2) => (r, evs ++ evs2)
    | (Except.error e, evs) => (Except.error e, evs)

def emit (e : Event) : M Unit := (Except.ok (), [e])

def throwJs {α : Type} (e : JsError) : M α := (Except.error e, [])

/-! ## The `@actions/core` input collaborator -/

/-- The raw environment value of an input, `""` when absent. -/
def rawInput (env : CIInputs) (name : String) : String :=
  (env.lookup name).getD ""

/-- `core.getInput(name, { required: false, trimWhiteSpace: true })` —
also the behavior of `core.getInput(name)` with no options. -/
def getInputOptional (env : CIInputs) (name : String) : String :=
  jsTrim (rawInput env name)

/-- `core.getInput(name, { required: true, trimWhiteSpace: true })`: throws
when the raw value is empty, else returns it trimmed. -/
def getInputRequired (env : CIInputs) (name : String) : M String :=
  let val := rawInput env name
  if val = "" then throwJs (.error ("Input required and not supplied: " ++ name))
  else pure (jsTrim val)

/-- The `RequiredInputs` interface of the source. -/
structure RequiredInputs where
  accessToken : String
  bucketName : String
  glossaryName : String
  glossaryFileName : String
  projectId : String
deriving DecidableEq, Repr

/-- `getRequiredInputs` of the source (`access-token` is read without options,
hence optionally). -/
def getRequiredInputs (env : CIInputs) : M RequiredInputs := do
  let accessToken := getInputOptional env "access-token"
  let bucketName ← getInputRequired env "bucket-name"
  let glossaryName ← getInputRequired env "glossary-name"
  let glossaryFileName ← getInputRequired env "glossary-file-name"
  let projectId ← getInputRequired env "project-id"
  pure { accessToken := accessToken, bucketName := bucketName,
         glossaryName := glossaryName, glossaryFileName := glossaryFileName,
         projectId := projectId }

/-! ## The three HTTP operations -/

/-- `createGlossary` of the source. Note that both the error log line and the
thrown error text say "delete", copied from `deleteGlossary`. -/
def createGlossary (resps : Responses) (input : GlossaryRequest)
    (projectId accessToken : String) : M (Option String) := do
  let endPoint := s!"https://translation.googleapis.com/v3/projects/{projectId}/locations/us-central1/glossaries"
  emit (.httpPost endPoint s!"Bearer {accessToken}" input)
  let resp := resps.createResp
  if resp.status ≥ 300 then
    let message := resp.text
    emit (.debug s!"error message:{message}")
    let st := resp.status
    emit (.errorLog s!"delete glossary request failed with status:{st} message:{message}")
    throwJs (.error "delete request failed")
  else
    pure resp.json.name

/-- `deleteGlossary` of the source: 404 is success with a warning; any other
status at or above 300 throws after logging. -/
def deleteGlossary (resps : Responses)
    (projectId glossaryName accessToken : String) : M Unit := do
  let endPoint := s!"https://translation.googleapis.com/v3/projects/{projectId}/locations/us-central1/glossaries/{glossaryName}"
  emit (.httpDelete endPoint s!"Bearer {accessToken}")
  let resp := resps.deleteResp
  if resp.status = 404 then
    let body := resp.text
    emit (.debug s!"response message: {body}")
    emit (.warning s!"glossary {glossaryName} is not found,continue to create")
    pure ()
  else if resp.status ≥ 300 then
    let message := resp.text
    emit (.debug s!"error message:{message}")
    let st := resp.status
    let quoted := jsonStr message
    emit (.errorLog s!"delete glossary request failed with status:{st} message:{quoted}")
    throwJs (.error "delete request failed")
  else
    let body := resp.text
    emit (.debug s!"response message :{body}")
    pure ()

/-- `headOperation` of the source. The error branch decodes the body and logs
it via a template literal (an object renders as `[object Object]`) and
`JSON.stringify`; the thrown error text again says "delete". -/
def headOperation (resps : Responses) (name accessToken : String) : M GoogleResponse := do
  let endPoint := s!"https://translation.googleapis.com/v3/{name}"
  emit (.httpGet endPoint s!"Bearer {accessToken}")
  let resp := resps.inspectResp
  if resp.status ≥ 300 then
    emit (.debug "error message:[object Object]")
    let st := resp.status
    let body := stringifyGoogleResponse resp.json
    emit (.errorLog s!"delete glossary request failed with status:{st} message:{body}")
    throwJs (.error "delete request failed")
  else
    pure resp.json

/-! ## The coordinator -/

inductive CreateType where
  | onePair
  | codesSet
deriving DecidableEq, Repr

/-- The wait-time resolution inlined in `handler` (source lines 193-201):
`parseInt`, `NaN` defaults to 0, values above 300 are clamped to 300. -/
def resolveWaitTime (raw : String) : Int :=
  let waitTime : Int :=
    match jsParseInt raw with
    | none => 0
    | some n => n
  if waitTime > 300 then 300 else waitTime

/-- `handler` of the source. In the `onePair` branch the list has exactly two
elements, so `getD ""` is never the default there; in the `codesSet` branch an
absent first element is JavaScript `undefined`, and calling `.split` on it
throws a `TypeError`. -/
def handler (env : CIInputs) (resps : Responses) (inputsRaw : List String) :
    M GoogleResponse := do
  if inputsRaw.length > 2 then
    throwJs (.error "input can not be more than 2 string object")
  else
    let createType : CreateType :=
      if inputsRaw.length > 1 then .onePair else .codesSet
    let req ← getRequiredInputs env
    let bucketName := req.bucketName
    let glossaryFileName := req.glossaryFileName
    let projectId := req.projectId
    let glossaryName := req.glossaryName
    let accessToken := req.accessToken
    emit (.info s!"try delete existed resource: {projectId}/{glossaryName}")
    deleteGlossary resps projectId glossaryName accessToken
    let glossaryFullName := s!"projects/{projectId}/locations/us-central1/glossaries/{glossaryName}"
    let glossaryFilePath := s!"gs://{bucketName}/{glossaryFileName}"
    let input : GlossaryRequest ←
      match createType with
      | .onePair =>
        pure { name := glossaryFullName,
               languagePair := some { sourceLanguageCode := (inputsRaw.get? 0).getD "",
                                      targetLanguageCode := (inputsRaw.get? 1).getD "" },
               languageCodesSet := none,
               inputConfig := { gcsSource := { inputUri := glossaryFilePath } } }
      | .codesSet =>
        match inputsRaw.get? 0 with
        | none => throwJs (.typeError "Cannot read properties of undefined (reading split)")
        | some s0 =>
          let codes := jsSplitComma s0
          pure { name := glossaryFullName,
                 languagePair := none,
                 languageCodesSet := some { languageCodes := codes },
                 inputConfig := { gcsSource := { inputUri := glossaryFilePath } } }
    emit (.info s!"try create glossary resource: {projectId}/{glossaryName}")
    let nameOpt ← createGlossary resps input projectId accessToken
    let nameFalsy : Bool :=
      match nameOpt with
      | none => true
      | some s => s = ""
    if nameFalsy then
      emit (.errorLog "failed to parse google response of name field")
      throwJs (.error "failed to parse google response of name field")
    else
      let name := nameOpt.getD ""
      let waitTime := resolveWaitTime (getInputOptional env "wait-time")
      if waitTime ≠ 0 then
        emit (.info s!"wait for {waitTime} secs...")
        emit (.sleep (waitTime * 1000))
      emit (.info s!"try head operation: {name}")
      let message ← headOperation resps name accessToken
      match message.metadata with
      | none =>
        emit (.errorLog "failed to parse google response of metaData field")
        throwJs (.error "failed to parse google response of metaData field")
      | some md =>
        if md.state = STATE.FAILED then
          let emsg :=
            match message.error with
            | some e => e.message
            | none => "undefined"
          emit (.errorLog s!"create operation has failed. message:{emsg}")
          throwJs (.error "create operation failed")
        else
          pure message

/-- `main` of the source: pair mode when both target and source language are
non-empty, else set mode when the codes set is non-empty, else throw. -/
def main (env : CIInputs) (resps : Responses) : M Unit := do
  let targetLanguage := getInputOptional env "target-language"
  let sourceLanguage := getInputOptional env "source-language"
  let languageCodesSet := getInputOptional env "language-codes-set"
  if targetLanguage.length ≠ 0 ∧ sourceLanguage.length ≠ 0 then
    emit (.info s!"detected sourceLanguage: {sourceLanguage}, targetLanguage {targetLanguage}")
    emit (.info "create one pair glossary resource")
    let message ← handler env resps [targetLanguage, sourceLanguage]
    if (message.metadata.map fun m => m.state) = some STATE.RUNNING then
      emit (.setOutput "operation-name" (message.name.getD ""))
    let stateStr :=
      match message.metadata with
      | some m => stateToString m.state
      | none => "undefined"
    emit (.info s!"update is {stateStr}")
  else if languageCodesSet.length ≠ 0 then
    emit (.info s!"detected language codes set: {languageCodesSet}")
    emit (.info "create multi-language glossary resource")
    let message ← handler env resps [languageCodesSet]
    if (message.metadata.map fun m => m.state) = some STATE.RUNNING then
      emit (.setOutput "operation-name" (message.name.getD ""))
    let stateStr :=
      match message.metadata with
      | some m => stateToString m.state
      | none => "undefined"
    emit (.info s!"update is {stateStr}")
  else
    throwJs (.error "Not appropriate language code input setting")

/-- The outcome of the synchronous top level of the script. -/
inductive EntryOutcome where
  | ok
  | unhandledRejection (e : JsError)
deriving DecidableEq, Repr

/-- The top level of the source: `try { main(); } catch (error) {
core.setFailed(error.message); }`. `main` is an async function, so calling it
returns a promise and never throws synchronously; the catch block therefore
never runs, and a rejection of the promise becomes an unhandled promise
rejection instead of a `setFailed` call. -/
def entry (env : CIInputs) (resps : Responses) : EntryOutcome × List Event :=
  match main env resps with
  | (Except.ok _, evs) => (EntryOutcome.ok, evs)
  | (Except.error e, evs) => (EntryOutcome.unhandledRejection e, evs)

/-! ## Trace observation helpers -/

/-- The body of the first create request in a trace, if any. -/
def findPost : List Event → Option GlossaryRequest
  | [] => none
  | .httpPost _ _ body :: _ => some body
  | _ :: evs => findPost evs

def isSleep : Event → Bool
  | .sleep _ => true
  | _ => false

def isPost : Event → Bool
  | .httpPost _ _ _ => true
  | _ => false

def isGet : Event → Bool
  | .httpGet _ _ => true
  | _ => false

def isHttpDelete : Event → Bool
  | .httpDelete _ _ => true
  | _ => false

def isSetFailed : Event → Bool
  | .setFailed _ => true
  | _ => false

def isSetOutput : Event → Bool
  | .setOutput _ _ => true
  | _ => false

/-! ## Concrete fixtures -/

/-- An input environment holding the nine recognized inputs. -/
def envWith (tok bucket gname fname pid wait tgt src codes : String) : CIInputs :=
  ⟨fun n =>
    if n = "access-token" then some tok
    else if n = "bucket-name" then some bucket
    else if n = "glossary-name" then some gname
    else if n = "glossary-file-name" then some fname
    else if n = "project-id" then some pid
    else if n = "wait-time" then some wait
    else if n = "target-language" then some tgt
    else if n = "source-language" then some src
    else if n = "language-codes-set" then some codes
    else none⟩

/-- Pair-mode environment: target `"en"`, source `"fr"`, a given wait input. -/
def envPair (wait : String) : CIInputs :=
  envWith "tok" "bucket" "gname" "gfile" "pid" wait "en" "fr" ""

/-- Set-mode environment: only the codes set input is non-empty. -/
def envSet (codes : String) : CIInputs :=
  envWith "tok" "bucket" "gname" "gfile" "pid" "" "" "" codes

/-- Environment with no language input at all. -/
def envNoLang : CIInputs :=
  envWith "tok" "bucket" "gname" "gfile" "pid" "" "" "" ""

def opName : String := "projects/pid/locations/us-central1/operations/op1"

/-- All three calls succeed; the final snapshot is SUCCEEDED. -/
def goodResps : Responses :=
  { deleteResp := { status := 200, text := "ok", json := {} },
    createResp := { status := 200, text := "", json := { name := some opName } },
    inspectResp := { status := 200, text := "",
                     json := { name := some opName,
                               metadata := some { atType := "t", name := opName,
                                                  state := .SUCCEEDED } } } }

/-- `goodResps` with the delete response replaced. -/
def withDelete (r : Resp) : Responses :=
  { goodResps with deleteResp := r }

/-- `goodResps` with the create response replaced. -/
def withCreate (r : Resp) : Responses :=
  { goodResps with createResp := r }

/-- `goodResps` with the inspect response replaced. -/
def withInspect (r : Resp) : Responses :=
  { goodResps with inspectResp := r }

/-- The create request body built in pair mode from `envPair` and the inputs
`["en", "fr"]`, exactly as the code builds it. -/
def pairBody : GlossaryRequest :=
  { name := "projects/pid/locations/us-central1/glossaries/gname",
    languagePair := some { sourceLanguageCode := "en", targetLanguageCode := "fr" },
    languageCodesSet := none,
    inputConfig := { gcsSource := { inputUri := "gs://bucket/gfile" } } }

/-- The create request body built in codes-set mode from `envSet` and the
input `["en,fr,de"]`. -/
def setBody : GlossaryRequest :=
  { name := "projects/pid/locations/us-central1/glossaries/gname",
    languagePair := none,
    languageCodesSet := some { languageCodes := ["en", "fr", "de"] },
    inputConfig := { gcsSource := { inputUri := "gs://bucket/gfile" } } }

/-- The events of a pair-mode `handler` run on `envPair`, from the start
through the successful create call. -/
def pairTraceToCreate : List Event :=
  [.info "try delete existed resource: pid/gname",
   .httpDelete "https://translation.googleapis.com/v3/projects/pid/locations/us-central1/glossaries/gname" "Bearer tok",
   .debug "response message :ok",
   .info "try create glossary resource: pid/gname",
   .httpPost "https://translation.googleapis.com/v3/projects/pid/locations/us-central1/glossaries" "Bearer tok" pairBody]

/-- The events of the inspect step of a successful run on `goodResps`. -/
def inspectTrace : List Event :=
  [.info s!"try head operation: {opName}",
   .httpGet s!"https://translation.googleapis.com/v3/{opName}" "Bearer tok"]

/-! ## Reduction lemmas for the effect monad -/

theorem bind_def {α β : Type} (x : M α) (f : α → M β) :
    x >>= f =
      (match x with
       | (Except.ok a, evs) => ((f a).1, evs ++ (f a).2)
       | (Except.error e, evs) => (Except.error e, evs)) := by
  obtain ⟨r, evs⟩ := x
  cases r <;> rfl

theorem pure_def {α : Type} (a : α) : (Pure.pure a : M α) = (Except.ok a, []) := rfl

theorem toString_str (s : String) : toString s = s := rfl

/-- A dummy create request body, for calling `createGlossary` directly. -/
def dummyBody : GlossaryRequest :=
  { name := "n", inputConfig := { gcsSource := { inputUri := "u" } } }

/-- A decoded error payload as the remote service returns it on failure. -/
def inspectErrJson : GoogleResponse :=
  { error := some { code := 3, message := "bad", status := some "INVALID_ARGUMENT" } }

/-! ## Claim theorems -/

/-- C1: evaluation at the failing input. With target-language "en" and
source-language "fr", the top-level dispatch invokes the handler with
("en", "fr"), and the serialized create request body carries
languagePair with sourceLanguageCode "en" and targetLanguageCode "fr" and no
languageCodesSet field. The claim expects sourceLanguageCode "fr" and
targetLanguageCode "en" (first handler input is the target language), so the
code assigns the target-language input to sourceLanguageCode — a swap. -/
theorem C1_pair_mapping_swapped :
    findPost (main (envPair "") goodResps).2 = some pairBody ∧
    pairBody.languagePair
      = some { sourceLanguageCode := "en", targetLanguageCode := "fr" } ∧
    pairBody.languageCodesSet = none ∧
    pairBody.languagePair
      ≠ some { sourceLanguageCode := "fr", targetLanguageCode := "en" } := by
  decide

/-- C2: evaluation at the failing input. On a status-400 response, both
createGlossary and headOperation do include the response body (raw text for
create, decoded payload for inspect) in the logged error line, but both the
thrown error and the log line say the delete operation failed, copied from
deleteGlossary; the claim expects a create-tagged and an inspect-tagged
error. -/
theorem C2_create_inspect_errors_say_delete :
    (createGlossary (withCreate { status := 400, text := "boom", json := {} })
        dummyBody "pid" "tok").1
      = Except.error (.error "delete request failed") ∧
    Event.errorLog "delete glossary request failed with status:400 message:boom"
      ∈ (createGlossary (withCreate { status := 400, text := "boom", json := {} })
          dummyBody "pid" "tok").2 ∧
    (headOperation (withInspect { status := 400, text := "", json := inspectErrJson })
        "op" "tok").1
      = Except.error (.error "delete request failed") ∧
    Event.errorLog ("delete glossary request failed with status:400 message:"
        ++ stringifyGoogleResponse inspectErrJson)
      ∈ (headOperation (withInspect { status := 400, text := "", json := inspectErrJson })
          "op" "tok").2 := by
  decide

/-- C3: evaluation at failing inputs. The top level wraps the call of the
async function main in a synchronous try/catch, which cannot observe the
rejection of the returned promise: a failing run ends as an unhandled
promise rejection and core.setFailed is never invoked, both when main throws
its own input-validation error and when a remote call fails mid-flow; the
claim expects every failure of main to be routed into the terminal failure
signal. -/
theorem C3_failure_bypasses_setFailed :
    entry envNoLang goodResps
      = (EntryOutcome.unhandledRejection
          (.error "Not appropriate language code input setting"), []) ∧
    (entry (envPair "") (withDelete { status := 500, text := "oops", json := {} })).1
      = EntryOutcome.unhandledRejection (.error "delete request failed") ∧
    ((entry (envPair "") (withDelete { status := 500, text := "oops", json := {} })).2.filter
        isSetFailed) = [] ∧
    ((entry envNoLang goodResps).2.filter isSetFailed) = [] := by
  decide

/-- C9: calling handler with zero inputs passes the too-many-inputs guard
(its error is not the guard error), selects codes-set mode, performs the
delete call, and then fails with a TypeError from splitting the absent first
input before any create call is attempted. -/
theorem C9_zero_inputs_type_error :
    (handler (envPair "") goodResps []).1
      = Except.error (.typeError "Cannot read properties of undefined (reading split)") ∧
    (handler (envPair "") goodResps []).1
      ≠ Except.error (.error "input can not be more than 2 string object") ∧
    Event.httpDelete
        "https://translation.googleapis.com/v3/projects/pid/locations/us-central1/glossaries/gname"
        "Bearer tok"
      ∈ (handler (envPair "") goodResps []).2 ∧
    ((handler (envPair "") goodResps []).2.filter isPost) = [] := by
  decide

/-- C4: the resolved wait time is 0 when the wait-time input does not parse
to an integer (parseInt yields NaN, e.g. on "abc" or the empty string used
for an absent input), 300 when the parsed value exceeds 300 (e.g. "400"),
and the parsed value itself otherwise (e.g. "120"); and whenever the
resolved value is nonzero, the handler emits exactly one pause, of that many
seconds, after the create call succeeds and before the single inspect
call. -/
theorem C4_wait_time_resolution (w : String) (htrim : jsTrim w = w) :
    resolveWaitTime w =
      (match jsParseInt w with
       | none => 0
       | some n => if n > 300 then 300 else n) ∧
    resolveWaitTime "abc" = 0 ∧
    resolveWaitTime "" = 0 ∧
    resolveWaitTime "400" = 300 ∧
    resolveWaitTime "120" = 120 ∧
    (resolveWaitTime w ≠ 0 →
      handler (envPair w) goodResps ["en", "fr"]
        = (Except.ok goodResps.inspectResp.json,
           pairTraceToCreate
             ++ [Event.info s!"wait for {resolveWaitTime w} secs...",
                 Event.sleep (resolveWaitTime w * 1000)]
             ++ inspectTrace)) ∧
    (resolveWaitTime w ≠ 0 →
      ((handler (envPair w) goodResps ["en", "fr"]).2.filter isSleep)
        = [Event.sleep (resolveWaitTime w * 1000)]) := by
  have hwt : getInputOptional (envPair w) "wait-time" = w := by
    show jsTrim (rawInput (envPair w) "wait-time") = w
    rw [show rawInput (envPair w) "wait-time" = w from rfl, htrim]
  have hreq : getRequiredInputs (envPair w) =
      (Except.ok { accessToken := "tok", bucketName := "bucket", glossaryName := "gname",
                   glossaryFileName := "gfile", projectId := "pid" }, []) := rfl
  refine ⟨?_, by decide, by decide, by decide, by decide, ?_, ?_⟩
  · cases h : jsParseInt w <;> simp [resolveWaitTime, h]
  · intro ht
    simp [handler, createGlossary, deleteGlossary, headOperation, hreq, hwt, bind_def,
      pure_def, emit, throwJs, goodResps, ht, toString_str, pairTraceToCreate, pairBody,
      inspectTrace, opName]
  · intro ht
    simp [handler, createGlossary, deleteGlossary, headOperation, hreq, hwt, bind_def,
      pure_def, emit, throwJs, goodResps, ht, toString_str, isSleep, opName]

/-- C4 witness: at the concrete wait-time input "120" the resolved wait is
120 and the run pauses exactly once, for 120000 milliseconds. -/
theorem C4_wait_time_resolution_witness :
    jsTrim "120" = "120" ∧ resolveWaitTime "120" = 120 ∧
    ((handler (envPair "120") goodResps ["en", "fr"]).2.filter isSleep)
      = [Event.sleep (resolveWaitTime "120" * 1000)] :=
  ⟨by decide, by decide,
   (C4_wait_time_resolution "120" (by decide)).2.2.2.2.2.2 (by decide)⟩

/-- Resolving the five configuration inputs on `envPair` does not depend on
the wait-time input. -/
theorem getRequiredInputs_envPair (w : String) :
    getRequiredInputs (envPair w) =
      (Except.ok { accessToken := "tok", bucketName := "bucket", glossaryName := "gname",
                   glossaryFileName := "gfile", projectId := "pid" }, []) := rfl

/-- The wait-time input of `envPair` resolves to its trimmed raw value. -/
theorem waitInput_envPair (w : String) :
    getInputOptional (envPair w) "wait-time" = jsTrim w := rfl

/-- C5: a delete response with status 404 does not raise — the call returns
success after a warning signal — and the handler proceeds to the create
call; for every other status at or above 300 the delete call raises the
delete failure and the create call is never attempted. -/
theorem C5_delete_404_tolerated (s : Nat) (hs : 300 ≤ s) (h404 : s ≠ 404) :
    (deleteGlossary (withDelete { status := 404, text := "nf", json := {} })
        "pid" "gname" "tok").1 = Except.ok () ∧
    Event.warning "glossary gname is not found,continue to create"
      ∈ (deleteGlossary (withDelete { status := 404, text := "nf", json := {} })
          "pid" "gname" "tok").2 ∧
    findPost (handler (envPair "") (withDelete { status := 404, text := "nf", json := {} })
        ["en", "fr"]).2 = some pairBody ∧
    (handler (envPair "") (withDelete { status := 404, text := "nf", json := {} })
        ["en", "fr"]).1 = Except.ok goodResps.inspectResp.json ∧
    (deleteGlossary (withDelete { status := s, text := "err", json := {} })
        "pid" "gname" "tok").1 = Except.error (.error "delete request failed") ∧
    (handler (envPair "") (withDelete { status := s, text := "err", json := {} })
        ["en", "fr"]).1 = Except.error (.error "delete request failed") ∧
    ((handler (envPair "") (withDelete { status := s, text := "err", json := {} })
        ["en", "fr"]).2.filter isPost) = [] := by
  refine ⟨by decide, by decide, by decide, by decide, ?_, ?_, ?_⟩
  · simp [deleteGlossary, withDelete, goodResps, bind_def, pure_def, emit, throwJs,
      h404, hs, ge_iff_le, toString_str]
  · simp [handler, deleteGlossary, getRequiredInputs_envPair, withDelete, goodResps,
      bind_def, pure_def, emit, throwJs, h404, hs, ge_iff_le, toString_str]
  · simp [handler, deleteGlossary, getRequiredInputs_envPair, withDelete, goodResps,
      bind_def, pure_def, emit, throwJs, h404, hs, ge_iff_le, toString_str, isPost]

/-- C5 witness: at status 500 the delete call raises the delete failure and
no create request appears in the trace. -/
theorem C5_delete_404_tolerated_witness :
    (handler (envPair "") (withDelete { status := 500, text := "err", json := {} })
        ["en", "fr"]).1 = Except.error (.error "delete request failed") ∧
    ((handler (envPair "") (withDelete { status := 500, text := "err", json := {} })
        ["en", "fr"]).2.filter isPost) = [] := by
  have h := C5_delete_404_tolerated 500 (by decide) (by decide)
  exact ⟨h.2.2.2.2.2.1, h.2.2.2.2.2.2⟩

/-- C6: for every create response with a status below 300 whose decoded body
has no name field, the handler raises the name-field shape error (message
"failed to parse google response of name field"), emits no pause and no
inspect request, and its entire outcome is independent of the wait-time
input — the error occurs before the wait-time input is resolved. -/
theorem C6_create_missing_name (g : GoogleResponse) (s : Nat) (w wAlt : String)
    (hg : g.name = none) (hs : s < 300) :
    (handler (envPair w) (withCreate { status := s, text := "", json := g })
        ["en", "fr"]).1
      = Except.error (.error "failed to parse google response of name field") ∧
    Event.errorLog "failed to parse google response of name field"
      ∈ (handler (envPair w) (withCreate { status := s, text := "", json := g })
          ["en", "fr"]).2 ∧
    ((handler (envPair w) (withCreate { status := s, text := "", json := g })
        ["en", "fr"]).2.filter isSleep) = [] ∧
    ((handler (envPair w) (withCreate { status := s, text := "", json := g })
        ["en", "fr"]).2.filter isGet) = [] ∧
    handler (envPair w) (withCreate { status := s, text := "", json := g }) ["en", "fr"]
      = handler (envPair wAlt) (withCreate { status := s, text := "", json := g })
          ["en", "fr"] := by
  have hns : ¬ (300 ≤ s) := by omega
  refine ⟨?_, ?_, ?_, ?_, ?_⟩ <;>
    simp [handler, createGlossary, deleteGlossary, getRequiredInputs_envPair, withCreate,
      goodResps, bind_def, pure_def, emit, throwJs, hg, hns, ge_iff_le, toString_str,
      isSleep, isGet]

/-- C6 witness: a status-200 create response with an empty decoded body makes
the handler fail with the name-field shape error, with no pause and no
inspect request in the trace. -/
theorem C6_create_missing_name_witness :
    (handler (envPair "3") (withCreate { status := 200, text := "", json := {} })
        ["en", "fr"]).1
      = Except.error (.error "failed to parse google response of name field") ∧
    ((handler (envPair "3") (withCreate { status := 200, text := "", json := {} })
        ["en", "fr"]).2.filter isGet) = [] := by
  have h := C6_create_missing_name {} 200 "3" "99" (by decide) (by decide)
  exact ⟨h.1, h.2.2.2.1⟩

/-- Responses whose inspect call succeeds with the given decoded snapshot. -/
def inspectWith (g : GoogleResponse) : Responses :=
  withInspect { status := 200, text := "", json := g }

def mdFailed : MetaData := { atType := "t", name := "op", state := .FAILED }

def emBoom : ErrorMessage := { code := 3, message := "boom" }

def gFailed : GoogleResponse := { metadata := some mdFailed, error := some emBoom }

def mdRunning : MetaData := { atType := "t", name := opName, state := .RUNNING }

def gRunning : GoogleResponse := { name := some opName, metadata := some mdRunning }

def mdSucc : MetaData := { atType := "t", name := opName, state := .SUCCEEDED }

def gSucceeded : GoogleResponse := { name := some opName, metadata := some mdSucc }

/-- C7: after the single inspect call, a snapshot without metadata makes the
handler fail with the metaData-field-missing error; a FAILED state makes it
fail with the create-operation-failed error whose log line carries the
remote error message; a RUNNING state lets the handler return the snapshot
and main set the operation name as the output value; a SUCCEEDED state
lets the handler return the snapshot while main sets no output value and
logs the final state. -/
theorem C7_inspect_outcomes (g : GoogleResponse) (md : MetaData) (em : ErrorMessage)
    (nm : String) :
    (g.metadata = none →
      (handler (envPair "") (inspectWith g) ["en", "fr"]).1
        = Except.error (.error "failed to parse google response of metaData field")) ∧
    (g.metadata = some md → md.state = STATE.FAILED → g.error = some em →
      (handler (envPair "") (inspectWith g) ["en", "fr"]).1
        = Except.error (.error "create operation failed") ∧
      Event.errorLog s!"create operation has failed. message:{em.message}"
        ∈ (handler (envPair "") (inspectWith g) ["en", "fr"]).2) ∧
    (g.metadata = some md → md.state = STATE.RUNNING → g.name = some nm →
      (handler (envPair "") (inspectWith g) ["en", "fr"]).1 = Except.ok g ∧
      (main (envPair "") (inspectWith g)).1 = Except.ok () ∧
      Event.setOutput "operation-name" nm ∈ (main (envPair "") (inspectWith g)).2) ∧
    (g.metadata = some md → md.state = STATE.SUCCEEDED →
      (handler (envPair "") (inspectWith g) ["en", "fr"]).1 = Except.ok g ∧
      (main (envPair "") (inspectWith g)).1 = Except.ok () ∧
      ((main (envPair "") (inspectWith g)).2.filter isSetOutput) = [] ∧
      Event.info "update is SUCCEEDED" ∈ (main (envPair "") (inspectWith g)).2) := by
  have htgt : getInputOptional (envPair "") "target-language" = "en" := rfl
  have hsrc : getInputOptional (envPair "") "source-language" = "fr" := rfl
  have hlen2 : ("en" : String).length = 2 := rfl
  have hlen2b : ("fr" : String).length = 2 := rfl
  have hwt : getInputOptional (envPair "") "wait-time" = "" := rfl
  have hrw : resolveWaitTime "" = 0 := by decide
  refine ⟨?_, ?_, ?_, ?_⟩
  · intro hm
    simp [handler, createGlossary, deleteGlossary, headOperation, getRequiredInputs_envPair,
      inspectWith, withInspect, goodResps, bind_def, pure_def, emit, throwJs, hm, hwt, hrw,
      toString_str, opName]
  · intro hm hst he
    constructor <;>
      simp [handler, createGlossary, deleteGlossary, headOperation, getRequiredInputs_envPair,
        inspectWith, withInspect, goodResps, bind_def, pure_def, emit, throwJs, hm, hst, he,
        hwt, hrw, toString_str, opName]
  · intro hm hst hn
    refine ⟨?_, ?_, ?_⟩ <;>
      simp [main, handler, createGlossary, deleteGlossary, headOperation,
        getRequiredInputs_envPair, inspectWith, withInspect, goodResps, bind_def, pure_def,
        emit, throwJs, hm, hst, hn, hwt, hrw, htgt, hsrc, hlen2, hlen2b, toString_str,
        opName, stateToString, isSetOutput]
  · intro hm hst
    refine ⟨?_, ?_, ?_, ?_⟩ <;>
      simp [main, handler, createGlossary, deleteGlossary, headOperation,
        getRequiredInputs_envPair, inspectWith, withInspect, goodResps, bind_def, pure_def,
        emit, throwJs, hm, hst, hwt, hrw, htgt, hsrc, hlen2, hlen2b, toString_str, opName,
        stateToString, isSetOutput]

/-- C7 witness: the four outcomes at concrete snapshots — no metadata fails
with the metaData-field error, FAILED fails with the create-operation-failed
error, RUNNING sets the operation-name output, SUCCEEDED sets no output. -/
theorem C7_inspect_outcomes_witness :
    (handler (envPair "") (inspectWith {}) ["en", "fr"]).1
      = Except.error (.error "failed to parse google response of metaData field") ∧
    (handler (envPair "") (inspectWith gFailed) ["en", "fr"]).1
      = Except.error (.error "create operation failed") ∧
    Event.setOutput "operation-name" opName ∈ (main (envPair "") (inspectWith gRunning)).2 ∧
    ((main (envPair "") (inspectWith gSucceeded)).2.filter isSetOutput) = [] := by
  refine ⟨(C7_inspect_outcomes {} mdFailed emBoom opName).1 (by decide), ?_, ?_, ?_⟩
  · exact ((C7_inspect_outcomes gFailed mdFailed emBoom opName).2.1 (by decide) (by decide)
      (by decide)).1
  · exact ((C7_inspect_outcomes gRunning mdRunning emBoom opName).2.2.1 (by decide)
      (by decide) (by decide)).2.2
  · exact ((C7_inspect_outcomes gSucceeded mdSucc emBoom opName).2.2.2 (by decide)
      (by decide)).2.2.1

/-- C8: in codes-set mode the single input string is split on commas —
input "en,fr,de" yields a body whose languageCodesSet.languageCodes is
["en", "fr", "de"] with no languagePair field — and in both modes, for any
non-empty trimmed configuration inputs, the posted body carries the
fully-qualified name projects/PROJECT/locations/us-central1/glossaries/NAME
and the input URI gs://BUCKET/FILE. -/
theorem C8_body_name_and_uri (pid bucket gname fname : String)
    (hpne : pid ≠ "") (hbne : bucket ≠ "") (hgne : gname ≠ "") (hfne : fname ≠ "")
    (hptrim : jsTrim pid = pid) (hbtrim : jsTrim bucket = bucket)
    (hgtrim : jsTrim gname = gname) (hftrim : jsTrim fname = fname) :
    findPost (handler (envSet "en,fr,de") goodResps ["en,fr,de"]).2 = some setBody ∧
    setBody.languageCodesSet = some { languageCodes := ["en", "fr", "de"] } ∧
    setBody.languagePair = none ∧
    findPost (handler (envWith "tok" bucket gname fname pid "" "en" "fr" "") goodResps
        ["en", "fr"]).2
      = some { name := s!"projects/{pid}/locations/us-central1/glossaries/{gname}",
               languagePair := some { sourceLanguageCode := "en", targetLanguageCode := "fr" },
               languageCodesSet := none,
               inputConfig := { gcsSource := { inputUri := s!"gs://{bucket}/{fname}" } } } ∧
    findPost (handler (envWith "tok" bucket gname fname pid "" "" "" "en,fr,de") goodResps
        ["en,fr,de"]).2
      = some { name := s!"projects/{pid}/locations/us-central1/glossaries/{gname}",
               languagePair := none,
               languageCodesSet := some { languageCodes := ["en", "fr", "de"] },
               inputConfig := { gcsSource := { inputUri := s!"gs://{bucket}/{fname}" } } } := by
  have hsplit : jsSplitComma "en,fr,de" = ["en", "fr", "de"] := by decide
  have htok : jsTrim "tok" = "tok" := by decide
  have hreq1 : getRequiredInputs (envWith "tok" bucket gname fname pid "" "en" "fr" "") =
      (Except.ok { accessToken := "tok", bucketName := jsTrim bucket,
                   glossaryName := jsTrim gname, glossaryFileName := jsTrim fname,
                   projectId := jsTrim pid }, []) := by
    simp [getRequiredInputs, getInputRequired, getInputOptional, rawInput, envWith,
      bind_def, pure_def, throwJs, hpne, hbne, hgne, hfne, htok]
  have hreq2 : getRequiredInputs (envWith "tok" bucket gname fname pid "" "" "" "en,fr,de") =
      (Except.ok { accessToken := "tok", bucketName := jsTrim bucket,
                   glossaryName := jsTrim gname, glossaryFileName := jsTrim fname,
                   projectId := jsTrim pid }, []) := by
    simp [getRequiredInputs, getInputRequired, getInputOptional, rawInput, envWith,
      bind_def, pure_def, throwJs, hpne, hbne, hgne, hfne, htok]
  refine ⟨by decide, by decide, by decide, ?_, ?_⟩
  · simp [handler, createGlossary, deleteGlossary, hreq1, bind_def, pure_def, emit, throwJs,
      goodResps, hptrim, hbtrim, hgtrim, hftrim, toString_str, findPost, hsplit]
  · simp [handler, createGlossary, deleteGlossary, hreq2, bind_def, pure_def, emit, throwJs,
      goodResps, hptrim, hbtrim, hgtrim, hftrim, toString_str, findPost, hsplit]

/-- C8 witness: at the concrete configuration of the fixtures, both modes
post a body with the fully-qualified glossary name and the gs URI. -/
theorem C8_body_name_and_uri_witness :
    findPost (handler (envSet "en,fr,de") goodResps ["en,fr,de"]).2 = some setBody ∧
    findPost (handler (envWith "tok" "bucket" "gname" "gfile" "pid" "" "en" "fr" "")
        goodResps ["en", "fr"]).2
      = some { name := "projects/pid/locations/us-central1/glossaries/gname",
               languagePair := some { sourceLanguageCode := "en", targetLanguageCode := "fr" },
               languageCodesSet := none,
               inputConfig := { gcsSource := { inputUri := "gs://bucket/gfile" } } } := by
  have h := C8_body_name_and_uri "pid" "bucket" "gname" "gfile"
    (by decide) (by decide) (by decide) (by decide)
    (by decide) (by decide) (by decide) (by decide)
  exact ⟨h.1, h.2.2.2.1⟩

/-- C10: a wait-time input that parses to a negative integer n resolves to n
itself — only values above 300 are clamped and only a failed parse defaults
to 0 — and since n is nonzero the handler enters the wait branch and emits a
pause of negative duration. -/
theorem C10_negative_wait_not_clamped (w : String) (n : Int)
    (hw : jsParseInt w = some n) (hneg : n < 0) (htrim : jsTrim w = w) :
    resolveWaitTime w = n ∧
    ((handler (envPair w) goodResps ["en", "fr"]).2.filter isSleep)
      = [Event.sleep (n * 1000)] ∧
    Event.info s!"wait for {n} secs..." ∈ (handler (envPair w) goodResps ["en", "fr"]).2 := by
  have h300 : ¬ ((n : Int) > 300) := by omega
  have hres : resolveWaitTime w = n := by
    simp [resolveWaitTime, hw, h300]
  have hnne : ¬ ((n : Int) = 0) := by omega
  have hwt : getInputOptional (envPair w) "wait-time" = w := by
    rw [waitInput_envPair, htrim]
  refine ⟨hres, ?_, ?_⟩ <;>
    simp [handler, createGlossary, deleteGlossary, headOperation, getRequiredInputs_envPair,
      hwt, hres, hnne, bind_def, pure_def, emit, throwJs, goodResps, toString_str, isSleep,
      opName]

/-- C10 witness: the wait-time input "-5" resolves to -5 and the run pauses
for -5000 milliseconds. -/
theorem C10_negative_wait_not_clamped_witness :
    resolveWaitTime "-5" = -5 ∧
    ((handler (envPair "-5") goodResps ["en", "fr"]).2.filter isSleep)
      = [Event.sleep (-5 * 1000)] := by
  have h := C10_negative_wait_not_clamped "-5" (-5) (by decide) (by decide) (by decide)
  exact ⟨h.1, h.2.1⟩

end Glossary
